import Mathlib

/-!
Shallow embedding of the Bio_impedance_simulation repository.

The repository holds three successive versions of a bioimpedance widget:
* `src/src/bioimpedancesimulation.jsx` — original version: fixed frequency
  range 1..100, plus a manual L-Dex calculator (`calculateManualLDex`);
* `src/unnamed/part_000` — frequency-selection version: user-chosen
  `minFreq`/`maxFreq` bounds and a `selectedFreq` lookup;
* `src/unnamed/part_001` — dual-limb version: two fluid levels, CSV export.

JavaScript numbers are modelled as real numbers (`ℝ`); the integer-valued
frequency bounds and frequencies as `ℤ`.  `parseFloat` results that may be
`NaN` are modelled as `Option ℝ` with `none` standing for `NaN`.
-/

namespace Bioimpedance

noncomputable section

/-- Source: `const R0 = 1000` (ohms). -/
def R0 : ℝ := 1000

/-- Source: `const C0 = 1e-9` (farads). -/
def C0 : ℝ := 1e-9

/-- Source: `const fluidFactor = 1 - fluidLevel * 0.6; const resistance = R0 * fluidFactor`. -/
def resistance (fluidLevel : ℝ) : ℝ := R0 * (1 - fluidLevel * 0.6)

/-- Source: `const capacitance = C0 * (1 + fluidLevel * 3)`. -/
def capacitance (fluidLevel : ℝ) : ℝ := C0 * (1 + fluidLevel * 3)

/-- Source: `const omega = 2 * Math.PI * f * 1000` where `f` is the frequency in kHz. -/
def omega (f : ℝ) : ℝ := 2 * Real.pi * f * 1000

/-- Source: `const denom = 1 + Math.pow(omega * resistance * capacitance, 2)`. -/
def denom (fluidLevel f : ℝ) : ℝ :=
  1 + (omega f * resistance fluidLevel * capacitance fluidLevel) ^ 2

/-- Source: `const Z = resistance / Math.sqrt(denom)` — the impedance of the RC model
at fluid level `fluidLevel` and frequency `f` (kHz). -/
def impedance (fluidLevel f : ℝ) : ℝ :=
  resistance fluidLevel / Real.sqrt (denom fluidLevel f)

/-- Source: `Array.from({ length: maxFreq - minFreq + 1 }, (_, i) => i + minFreq)` —
the frequency axis of the two later versions.  A negative computed length
yields the empty array in JavaScript, matched here by `Int.toNat`. -/
def frequencies (minFreq maxFreq : ℤ) : List ℤ :=
  (List.range (maxFreq - minFreq + 1).toNat).map (fun i : ℕ => (i : ℤ) + minFreq)

/-- Result record of `generateImpedanceData`: `{ frequencies, impedanceData }`. -/
structure ImpedanceResult where
  frequencies : List ℤ
  impedanceData : List ℝ

/-- Function `generateImpedanceData(fluidLevel, minFreq, maxFreq)` of the
frequency-selection and dual-limb versions: the frequency axis together with
the impedance evaluated at each of its points. -/
def generateImpedanceData (fluidLevel : ℝ) (minFreq maxFreq : ℤ) : ImpedanceResult :=
  { frequencies := frequencies minFreq maxFreq
    impedanceData := (frequencies minFreq maxFreq).map (fun f : ℤ => impedance fluidLevel (f : ℝ)) }

/-- Function `generateImpedanceData(fluidLevel)` of the original version: the frequency
range is fixed to `Array.from({ length: 100 }, (_, i) => i + 1)`, i.e. 1..100. -/
def generateImpedanceDataOrig (fluidLevel : ℝ) : ImpedanceResult :=
  { frequencies := (List.range 100).map (fun i : ℕ => (i : ℤ) + 1)
    impedanceData :=
      ((List.range 100).map (fun i : ℕ => (i : ℤ) + 1)).map (fun f : ℤ => impedance fluidLevel (f : ℝ)) }

/-- Source: `const fluidPercentage = fluidLevel * 100` (frequency-selection version). -/
def fluidPercentage (fluidLevel : ℝ) : ℝ := fluidLevel * 100

/-- Source: `const lDexIndex = fluidPercentage / 10` (frequency-selection version). -/
def lDexIndex (fluidLevel : ℝ) : ℝ := fluidPercentage fluidLevel / 10

/-- Source: `const lDexLeft = (leftFluid * 100) / 10` (dual-limb version). -/
def lDexLeft (leftFluid : ℝ) : ℝ := leftFluid * 100 / 10

/-- Source: `const lDexRight = (rightFluid * 100) / 10` (dual-limb version). -/
def lDexRight (rightFluid : ℝ) : ℝ := rightFluid * 100 / 10

/-- Frequency-selection version:
`const selectedIndex = frequencies.indexOf(selectedFreq);`
`const selectedImpedance = selectedIndex !== -1 ? impedanceData[selectedIndex] : "N/A";`
JavaScript `indexOf` marks "not found" with `-1`; Lean's `List.indexOf` marks it
with the list's length, so `selectedIndex !== -1` becomes
`selectedIndex ≠ frequencies.length`.  The string `"N/A"` of the false branch is
modelled by `none`, a found number by `some`. -/
def selectedImpedance (fluidLevel : ℝ) (minFreq maxFreq selectedFreq : ℤ) : Option ℝ :=
  let r := generateImpedanceData fluidLevel minFreq maxFreq
  let selectedIndex := r.frequencies.indexOf selectedFreq
  if selectedIndex ≠ r.frequencies.length then r.impedanceData[selectedIndex]? else none

/-- In the render, `selectedImpedance.toFixed(2)` is a defined operation exactly
when `selectedImpedance` is a number; on the string `"N/A"` (modelled `none`)
`Number.prototype.toFixed` does not exist and the call is a type error. -/
def toFixedDefined (v : Option ℝ) : Prop := v.isSome = true

/-- The manual L-Dex component state touched by `calculateManualLDex`:
`manualLDex` (initially `null`, modelled `none`) and `manualMessage`. -/
structure ManualState where
  manualLDex : Option ℝ
  manualMessage : String

/-- JavaScript truthiness test `!v` on a `parseFloat` result: a number is falsy
iff it is `NaN` (modelled `none`) or zero. -/
@[reducible]
def falsy (v : Option ℝ) : Prop := v = none ∨ v = some 0

/-- JavaScript `Math.log10`: a real logarithm for positive arguments, `NaN`
(modelled `none`) for negative ones.  (`Math.log10(0)` is `-Infinity`, also not
a real number and also modelled `none`; under the nonzero guard of
`calculateManualLDex` a zero argument cannot occur over the reals.) -/
def jsLog10 (x : ℝ) : Option ℝ :=
  if 0 < x then some (Real.logb 10 x) else none

/-- The message ladder of `calculateManualLDex`:
`Math.abs(lDexVal) < 3` → normal, `< 10` → mild/moderate, else significant.
When `lDexVal` is `NaN` (modelled `none`) both comparisons are false in
JavaScript, so the final else branch is taken. -/
def severityMessage (lDexVal : Option ℝ) : String :=
  match lDexVal with
  | some v =>
    if |v| < 3 then "Normal fluid levels."
    else if |v| < 10 then "Mild to moderate fluid buildup."
    else "Significant fluid buildup. Please consult a specialist."
  | none => "Significant fluid buildup. Please consult a specialist."

/-- Function `calculateManualLDex` of the original version, applied to the already
parsed inputs `vA = parseFloat(voltageAffected)` etc. (`none` = `NaN`) and the
current state.  The guard `if (!vA || !iA || !vU || !iU)` sets the message and
returns without touching `manualLDex`; otherwise
`lDexVal = Math.log10((vA/iA) / (vU/iU)) * 10` is stored (the JS stores its
two-decimal string rendering `lDexVal.toFixed(2)`, which is `"NaN"` when the
ratio is negative; we keep the numeric-or-`NaN` value as an `Option`, `NaN`
propagating through the product) together with the severity message. -/
def calculateManualLDex (vA iA vU iU : Option ℝ) (st : ManualState) : ManualState :=
  if falsy vA ∨ falsy iA ∨ falsy vU ∨ falsy iU then
    { st with manualMessage := "Please fill all voltage and current values." }
  else
    let zA := vA.getD 0 / iA.getD 0
    let zU := vU.getD 0 / iU.getD 0
    let lDexVal := (jsLog10 (zA / zU)).map (fun v => v * 10)
    { manualLDex := lDexVal, manualMessage := severityMessage lDexVal }

/-- Function `exportToCSV` of the dual-limb version: the header row
`"Frequency,Left Impedance,Right Impedance"` followed by one row per element of
`left.frequencies`, row `i` holding `f`, `left.impedanceData[i]` and
`right.impedanceData[i]`.  A data row is modelled as the triple of the values
interpolated into the CSV line; `none` models an out-of-bounds index access
(JavaScript `undefined`). -/
def exportToCSV (leftFluid rightFluid : ℝ) (minFreq maxFreq : ℤ) :
    String × List (Option (ℤ × ℝ × ℝ)) :=
  let left := generateImpedanceData leftFluid minFreq maxFreq
  let right := generateImpedanceData rightFluid minFreq maxFreq
  ("Frequency,Left Impedance,Right Impedance",
    left.frequencies.enum.map (fun p =>
      match left.impedanceData[p.1]?, right.impedanceData[p.1]? with
      | some zl, some zr => some (p.2, zl, zr)
      | _, _ => none))

end

/-! ### Basic facts about the frequency axis -/

theorem frequencies_cons (n : ℕ) (m : ℤ) :
    (List.range (n + 1)).map (fun i : ℕ => (i : ℤ) + m) =
      m :: (List.range n).map (fun i : ℕ => (i : ℤ) + (m + 1)) := by
  rw [List.range_succ_eq_map, List.map_cons, List.map_map]
  refine congrArg₂ _ (by push_cast; ring) ?_
  refine List.map_congr_left fun i _ => ?_
  simp only [Function.comp_apply]
  push_cast
  ring

theorem frequencies_length (minFreq maxFreq : ℤ) :
    (frequencies minFreq maxFreq).length = (maxFreq - minFreq + 1).toNat := by
  simp [frequencies]

theorem frequencies_getElem (minFreq maxFreq : ℤ) (i : ℕ)
    (h : i < (frequencies minFreq maxFreq).length) :
    (frequencies minFreq maxFreq)[i] = minFreq + i := by
  simp only [frequencies, List.getElem_map, List.getElem_range]
  ring

theorem mem_frequencies (minFreq maxFreq s : ℤ) :
    s ∈ frequencies minFreq maxFreq ↔ minFreq ≤ s ∧ s ≤ maxFreq := by
  simp only [frequencies, List.mem_map, List.mem_range]
  constructor
  · rintro ⟨i, hi, rfl⟩
    omega
  · rintro ⟨h1, h2⟩
    exact ⟨(s - minFreq).toNat, by omega, by omega⟩

theorem indexOf_range_map (n : ℕ) (m s : ℤ) (h1 : m ≤ s) (h2 : s < m + n) :
    ((List.range n).map (fun i : ℕ => (i : ℤ) + m)).indexOf s = (s - m).toNat := by
  induction n generalizing m with
  | zero => omega
  | succ n ih =>
    rw [frequencies_cons]
    by_cases hs : m = s
    · rw [List.indexOf_cons_eq _ hs]
      omega
    · rw [List.indexOf_cons_ne _ hs, ih (m + 1) (by omega) (by omega)]
      omega

theorem frequencies_indexOf (minFreq maxFreq s : ℤ) (h1 : minFreq ≤ s) (h2 : s ≤ maxFreq) :
    (frequencies minFreq maxFreq).indexOf s = (s - minFreq).toNat := by
  rw [frequencies, indexOf_range_map _ _ _ h1 (by omega)]

theorem impedanceData_length (fluidLevel : ℝ) (minFreq maxFreq : ℤ) :
    (generateImpedanceData fluidLevel minFreq maxFreq).impedanceData.length =
      (maxFreq - minFreq + 1).toNat := by
  simp [generateImpedanceData, frequencies]

theorem impedanceData_getElem (fluidLevel : ℝ) (minFreq maxFreq : ℤ) (i : ℕ)
    (h : i < (generateImpedanceData fluidLevel minFreq maxFreq).impedanceData.length) :
    (generateImpedanceData fluidLevel minFreq maxFreq).impedanceData[i] =
      impedance fluidLevel ((minFreq : ℝ) + i) := by
  have h' : i < (frequencies minFreq maxFreq).length := by
    simpa [generateImpedanceData] using h
  simp only [generateImpedanceData, List.getElem_map, frequencies_getElem _ _ _ h']
  push_cast
  ring_nf

/-! ### Positivity facts about the circuit parameters -/

theorem resistance_pos {x : ℝ} (hx1 : x ≤ 1) : 0 < resistance x := by
  unfold resistance R0
  nlinarith

theorem capacitance_pos {x : ℝ} (hx0 : 0 ≤ x) : 0 < capacitance x := by
  unfold capacitance C0
  nlinarith

theorem denom_ge_one (x f : ℝ) : 1 ≤ denom x f := by
  have h := sq_nonneg (omega f * resistance x * capacitance x)
  unfold denom
  linarith

theorem denom_pos (x f : ℝ) : 0 < denom x f :=
  lt_of_lt_of_le one_pos (denom_ge_one x f)

theorem sqrt_denom_pos (x f : ℝ) : 0 < Real.sqrt (denom x f) :=
  Real.sqrt_pos.mpr (denom_pos x f)

theorem one_le_sqrt_denom (x f : ℝ) : 1 ≤ Real.sqrt (denom x f) := by
  have h := Real.sqrt_le_sqrt (denom_ge_one x f)
  rwa [Real.sqrt_one] at h

/-- The code's impedance expression written exactly as the spec writes it:
`R / sqrt(1 + (2·π·f·1000·R·C)²)` with `R = 1000·(1 − 0.6·x)` and
`C = 1e-9·(1 + 3·x)`. -/
theorem impedance_eq_spec_formula (x f : ℝ) :
    impedance x f =
      1000 * (1 - 0.6 * x) /
        Real.sqrt (1 +
          (2 * Real.pi * f * 1000 * (1000 * (1 - 0.6 * x)) * (1e-9 * (1 + 3 * x))) ^ 2) := by
  simp only [impedance, denom, omega, resistance, capacitance, R0, C0]
  congr 1
  · ring
  · congr 1
    ring

/-! ### Claim theorems -/

/-- C7: for every fluid level `x`, the slider-derived L-Dex index equals
`(x·100)/10 = 10·x`, in the single-limb version (`lDexIndex`) and per limb in
the dual-limb version (`lDexLeft`, `lDexRight`). -/
theorem lDex_is_ten_times_fluid (x : ℝ) :
    lDexIndex x = 10 * x ∧ lDexLeft x = 10 * x ∧ lDexRight x = 10 * x := by
  unfold lDexIndex fluidPercentage lDexLeft lDexRight
  refine ⟨by ring, by ring, by ring⟩

/-- C8: at fluid level 0 the resistance computed inside
`generateImpedanceData` equals `R0 = 1000` ohms and the capacitance equals
`C0 = 1e-9` farads, since `1 - 0.6·0 = 1` and `1 + 3·0 = 1`. -/
theorem resistance_capacitance_at_zero :
    resistance 0 = R0 ∧ capacitance 0 = C0 ∧ R0 = 1000 ∧ C0 = 1e-9 := by
  unfold resistance capacitance R0 C0
  norm_num

/-- C4 counterexample: the number inputs' HTML `min`/`max` attributes do not
clamp typed values (`onChange` runs `setMaxFreq(parseInt(e.target.value))`
unconditionally), so `maxFreq = 101` typed into the Max Frequency input is an
interaction whose arrays have 101 entries — more than the claimed 100. -/
theorem generateImpedanceData_101_points :
    (generateImpedanceData 0 1 101).frequencies.length = 101 ∧
    (generateImpedanceData 0 1 101).impedanceData.length = 101 ∧
    ¬ ((generateImpedanceData 0 1 101).frequencies.length ≤ 100) := by
  have h1 : (generateImpedanceData (0:ℝ) 1 101).frequencies.length =
      ((101:ℤ) - 1 + 1).toNat := frequencies_length 1 101
  have h2 := impedanceData_length (0:ℝ) 1 101
  refine ⟨by omega, by omega, by omega⟩

/-- C4 (amended): when the frequency bounds respect the number inputs' declared
ranges (`minFreq ≥ 1`, `maxFreq ≤ 100`), the `frequencies` and `impedanceData`
arrays returned by `generateImpedanceData` have length at most 100, so the
impedance formula is evaluated over at most 100 points per interaction; a
typed-in bound outside those ranges can exceed 100 points. -/
theorem generateImpedanceData_at_most_100_points (x : ℝ) (minFreq maxFreq : ℤ)
    (hmin : 1 ≤ minFreq) (hmax : maxFreq ≤ 100) :
    (generateImpedanceData x minFreq maxFreq).frequencies.length ≤ 100 ∧
    (generateImpedanceData x minFreq maxFreq).impedanceData.length ≤ 100 := by
  have h1 : (generateImpedanceData x minFreq maxFreq).frequencies.length =
      (maxFreq - minFreq + 1).toNat := frequencies_length minFreq maxFreq
  have h2 := impedanceData_length x minFreq maxFreq
  omega

/-- Witness for C4 at `x = 0`, `minFreq = 1`, `maxFreq = 100`. -/
theorem generateImpedanceData_at_most_100_points_witness :
    (1:ℤ) ≤ 1 ∧ (100:ℤ) ≤ 100 ∧
    ((generateImpedanceData 0 1 100).frequencies.length ≤ 100 ∧
     (generateImpedanceData 0 1 100).impedanceData.length ≤ 100) :=
  ⟨by decide, by decide,
    generateImpedanceData_at_most_100_points 0 1 100 (by decide) (by decide)⟩

/-- C9: for fluid level `x ∈ [0,1]` and any frequency `f`, the denominator
term `1 + (ω·R·C)²` is at least 1 (so the square root and the division are
defined and nonzero), and the impedance satisfies
`0 < Z ≤ R = 1000·(1 − 0.6·x) ≤ 1000`. -/
theorem impedance_invariants (x f : ℝ) (hx0 : 0 ≤ x) (hx1 : x ≤ 1) :
    1 ≤ denom x f ∧ 0 < impedance x f ∧ impedance x f ≤ resistance x ∧
      resistance x ≤ 1000 := by
  have hR := resistance_pos hx1
  refine ⟨denom_ge_one x f, ?_, ?_, ?_⟩
  · exact div_pos hR (sqrt_denom_pos x f)
  · exact div_le_self hR.le (one_le_sqrt_denom x f)
  · unfold resistance R0
    nlinarith

/-- Witness for C9 at `x = 1/2`, `f = 50`. -/
theorem impedance_invariants_witness :
    (0:ℝ) ≤ 1/2 ∧ (1/2:ℝ) ≤ 1 ∧
    (1 ≤ denom (1/2) 50 ∧ 0 < impedance (1/2) 50 ∧
     impedance (1/2) 50 ≤ resistance (1/2) ∧ resistance (1/2) ≤ 1000) :=
  ⟨by norm_num, by norm_num,
    impedance_invariants (1/2) 50 (by norm_num) (by norm_num)⟩

/-- C2: for fixed fluid level `x ∈ [0,1]` and frequencies `1 ≤ f1 ≤ f2` (kHz),
the impedance computed by `generateImpedanceData` at `f2` is at most the
impedance at `f1`: the curve is monotonically non-increasing in frequency. -/
theorem impedance_antitone_in_frequency (x f1 f2 : ℝ)
    (hx0 : 0 ≤ x) (hx1 : x ≤ 1) (hf1 : 1 ≤ f1) (hf : f1 ≤ f2) :
    impedance x f2 ≤ impedance x f1 := by
  have hR := resistance_pos hx1
  have hC := capacitance_pos hx0
  have hw0 : 0 ≤ omega f1 := by
    unfold omega
    nlinarith [Real.pi_pos]
  have hw : omega f1 ≤ omega f2 := by
    unfold omega
    nlinarith [Real.pi_pos]
  have hbase : omega f1 * resistance x * capacitance x ≤
      omega f2 * resistance x * capacitance x := by
    have := mul_le_mul_of_nonneg_right (mul_le_mul_of_nonneg_right hw hR.le) hC.le
    linarith
  have hbase0 : 0 ≤ omega f1 * resistance x * capacitance x := by positivity
  have hd : denom x f1 ≤ denom x f2 := by
    unfold denom
    have := pow_le_pow_left hbase0 hbase 2
    linarith
  have hs : Real.sqrt (denom x f1) ≤ Real.sqrt (denom x f2) := Real.sqrt_le_sqrt hd
  unfold impedance
  gcongr
  exact sqrt_denom_pos x f1

/-- Witness for C2 at `x = 1/2`, `f1 = 1`, `f2 = 100`. -/
theorem impedance_antitone_in_frequency_witness :
    (0:ℝ) ≤ 1/2 ∧ (1/2:ℝ) ≤ 1 ∧ (1:ℝ) ≤ 1 ∧ (1:ℝ) ≤ 100 ∧
    impedance (1/2) 100 ≤ impedance (1/2) 1 :=
  ⟨by norm_num, by norm_num, by norm_num, by norm_num,
    impedance_antitone_in_frequency (1/2) 1 100 (by norm_num) (by norm_num)
      (by norm_num) (by norm_num)⟩

/-- C3: for a fixed frequency `f ≥ 1` kHz and fluid levels `x1 < x2` in
`[0,1]`, the impedance at fluid level `x2` is strictly less than the impedance
at `x1`: impedance is strictly decreasing in fluid level, since the resistance
decreases and the capacitance increases with fluid. -/
theorem impedance_strict_anti_in_fluid (x1 x2 f : ℝ)
    (hx0 : 0 ≤ x1) (h12 : x1 < x2) (hx2 : x2 ≤ 1) (hf : 1 ≤ f) :
    impedance x2 f < impedance x1 f := by
  have hR2 : 0 < resistance x2 := resistance_pos hx2
  have hR1 : 0 < resistance x1 := resistance_pos (by linarith)
  have hRR : resistance x2 < resistance x1 := by
    unfold resistance R0
    nlinarith
  have hC1 : 0 < capacitance x1 := capacitance_pos hx0
  have hC2 : 0 < capacitance x2 := capacitance_pos (by linarith)
  have hCC : capacitance x1 < capacitance x2 := by
    unfold capacitance C0
    nlinarith
  have hw : 0 < omega f := by
    unfold omega
    nlinarith [Real.pi_pos]
  have hd1 : 0 < denom x1 f := denom_pos x1 f
  have hd2 : 0 < denom x2 f := denom_pos x2 f
  have hsq : resistance x2 ^ 2 < resistance x1 ^ 2 := by nlinarith
  have hCsq : capacitance x1 ^ 2 < capacitance x2 ^ 2 := by nlinarith
  have hprod : 0 < omega f ^ 2 * resistance x1 ^ 2 * resistance x2 ^ 2 := by positivity
  have key : resistance x2 ^ 2 * denom x1 f < resistance x1 ^ 2 * denom x2 f := by
    unfold denom
    nlinarith [mul_lt_mul_of_pos_left hCsq hprod]
  unfold impedance
  rw [div_lt_div_iff (sqrt_denom_pos x2 f) (sqrt_denom_pos x1 f)]
  have hnn : 0 ≤ resistance x1 * Real.sqrt (denom x2 f) := by
    positivity
  refine lt_of_pow_lt_pow_left 2 hnn ?_
  rw [mul_pow, mul_pow, Real.sq_sqrt hd1.le, Real.sq_sqrt hd2.le]
  exact key

/-- Witness for C3 at `x1 = 0`, `x2 = 1`, `f = 50`. -/
theorem impedance_strict_anti_in_fluid_witness :
    (0:ℝ) ≤ 0 ∧ (0:ℝ) < 1 ∧ (1:ℝ) ≤ 1 ∧ (1:ℝ) ≤ 50 ∧
    impedance 1 50 < impedance 0 50 :=
  ⟨by norm_num, by norm_num, by norm_num, by norm_num,
    impedance_strict_anti_in_fluid 0 1 50 (by norm_num) (by norm_num)
      (by norm_num) (by norm_num)⟩

/-- C1: for `x ∈ [0,1]` and integer bounds `minFreq ≤ maxFreq`,
`generateImpedanceData x minFreq maxFreq` returns the consecutive integer
frequencies `minFreq, …, maxFreq`; `impedanceData` has the same length and its
`i`-th entry is `R / sqrt(1 + (2·π·fᵢ·1000·R·C)²)` with `R = 1000·(1 − 0.6·x)`
and `C = 1e-9·(1 + 3·x)`; and the original version is the same computation with
the range fixed to 1..100. -/
theorem generateImpedanceData_correct (x : ℝ) (minFreq maxFreq : ℤ)
    (hx0 : 0 ≤ x) (hx1 : x ≤ 1) (hle : minFreq ≤ maxFreq) :
    (((generateImpedanceData x minFreq maxFreq).frequencies.length : ℤ) =
        maxFreq - minFreq + 1) ∧
    (∀ i (h : i < (generateImpedanceData x minFreq maxFreq).frequencies.length),
      (generateImpedanceData x minFreq maxFreq).frequencies[i] = minFreq + i) ∧
    (generateImpedanceData x minFreq maxFreq).impedanceData.length =
      (generateImpedanceData x minFreq maxFreq).frequencies.length ∧
    (∀ i (hf : i < (generateImpedanceData x minFreq maxFreq).frequencies.length)
        (hz : i < (generateImpedanceData x minFreq maxFreq).impedanceData.length),
      (generateImpedanceData x minFreq maxFreq).impedanceData[i] =
        1000 * (1 - 0.6 * x) /
          Real.sqrt (1 +
            (2 * Real.pi *
                (((generateImpedanceData x minFreq maxFreq).frequencies[i] : ℤ) : ℝ) *
                1000 * (1000 * (1 - 0.6 * x)) * (1e-9 * (1 + 3 * x))) ^ 2)) ∧
    generateImpedanceDataOrig x = generateImpedanceData x 1 100 := by
  refine ⟨?_, ?_, ?_, ?_, ?_⟩
  · rw [show (generateImpedanceData x minFreq maxFreq).frequencies =
        frequencies minFreq maxFreq from rfl, frequencies_length]
    omega
  · intro i h
    exact frequencies_getElem minFreq maxFreq i h
  · rw [impedanceData_length, show (generateImpedanceData x minFreq maxFreq).frequencies =
        frequencies minFreq maxFreq from rfl, frequencies_length]
  · intro i hf hz
    have hf' : i < (frequencies minFreq maxFreq).length := hf
    rw [impedanceData_getElem x minFreq maxFreq i hz]
    simp only [show (generateImpedanceData x minFreq maxFreq).frequencies =
      frequencies minFreq maxFreq from rfl]
    rw [frequencies_getElem minFreq maxFreq i hf', impedance_eq_spec_formula]
    push_cast
    ring_nf
  · have hfreq : frequencies 1 100 = (List.range 100).map (fun i : ℕ => (i : ℤ) + 1) := by
      unfold frequencies
      norm_num
      rfl
    unfold generateImpedanceDataOrig generateImpedanceData
    rw [hfreq]

/-- Witness for C1 at `x = 0`, `minFreq = 1`, `maxFreq = 3`. -/
theorem generateImpedanceData_correct_witness :
    (0:ℝ) ≤ 0 ∧ (0:ℝ) ≤ 1 ∧ (1:ℤ) ≤ 3 ∧
    ((((generateImpedanceData 0 1 3).frequencies.length : ℤ) = 3 - 1 + 1) ∧
    (∀ i (h : i < (generateImpedanceData 0 1 3).frequencies.length),
      (generateImpedanceData 0 1 3).frequencies[i] = 1 + i) ∧
    (generateImpedanceData 0 1 3).impedanceData.length =
      (generateImpedanceData 0 1 3).frequencies.length ∧
    (∀ i (hf : i < (generateImpedanceData 0 1 3).frequencies.length)
        (hz : i < (generateImpedanceData 0 1 3).impedanceData.length),
      (generateImpedanceData 0 1 3).impedanceData[i] =
        1000 * (1 - 0.6 * 0) /
          Real.sqrt (1 +
            (2 * Real.pi * (((generateImpedanceData 0 1 3).frequencies[i] : ℤ) : ℝ) *
                1000 * (1000 * (1 - 0.6 * 0)) * (1e-9 * (1 + 3 * 0))) ^ 2)) ∧
    generateImpedanceDataOrig 0 = generateImpedanceData 0 1 100) :=
  ⟨by norm_num, by norm_num, by decide,
    generateImpedanceData_correct 0 1 3 (by norm_num) (by norm_num) (by decide)⟩

/-- C5 counterexample: at `vA = -1`, `iA = vU = iU = 1` — all accepted by the
validation guard, since `-1` is truthy — the program computes
`Math.log10(-1) = NaN`: the stored index is `NaN` (here `none`), not the real
number `log10((vA/iA)/(vU/iU))·10` the claim describes, and the message is the
significant-buildup one (`Math.abs(NaN) < 3` and `< 10` are both false). -/
theorem calculateManualLDex_nan_counterexample :
    (calculateManualLDex (some (-1)) (some 1) (some 1) (some 1) ⟨none, ""⟩).manualLDex =
      none ∧
    (calculateManualLDex (some (-1)) (some 1) (some 1) (some 1) ⟨none, ""⟩).manualLDex ≠
      some (Real.logb 10 ((-1 : ℝ) / 1 / (1 / 1)) * 10) ∧
    (calculateManualLDex (some (-1)) (some 1) (some 1) (some 1) ⟨none, ""⟩).manualMessage =
      "Significant fluid buildup. Please consult a specialist." := by
  have hcond : ¬(falsy (some (-1 : ℝ)) ∨ falsy (some (1 : ℝ)) ∨ falsy (some (1 : ℝ)) ∨
      falsy (some (1 : ℝ))) := by
    simp [falsy]
  have hres : calculateManualLDex (some (-1)) (some 1) (some 1) (some 1) ⟨none, ""⟩ =
      { manualLDex := none,
        manualMessage := "Significant fluid buildup. Please consult a specialist." } := by
    unfold calculateManualLDex
    rw [if_neg hcond]
    norm_num [jsLog10, severityMessage]
  rw [hres]
  exact ⟨rfl, by simp, rfl⟩

/-- C5 (amended): `calculateManualLDex` with any of the four parsed
voltage/current inputs `NaN` (here `none`) — or otherwise falsy, which the
validation rejects — sets the message
`"Please fill all voltage and current values."` and leaves `manualLDex`
unchanged; with all four inputs accepted by the validation and a positive ratio
`(vA/iA)/(vU/iU)` it stores the value `log10((vA/iA)/(vU/iU))·10` together with
one of the three severity messages; with a negative ratio `Math.log10` yields
`NaN`, the stored index is `NaN` (here `none`) and the message is the
significant-buildup one. -/
theorem calculateManualLDex_validation (vA iA vU iU : Option ℝ) (st : ManualState) :
    ((vA = none ∨ iA = none ∨ vU = none ∨ iU = none) →
      calculateManualLDex vA iA vU iU st =
        { manualLDex := st.manualLDex,
          manualMessage := "Please fill all voltage and current values." }) ∧
    (∀ a b c d : ℝ, vA = some a → iA = some b → vU = some c → iU = some d →
      a ≠ 0 → b ≠ 0 → c ≠ 0 → d ≠ 0 →
      (0 < a / b / (c / d) →
        calculateManualLDex vA iA vU iU st =
          { manualLDex := some (Real.logb 10 (a / b / (c / d)) * 10),
            manualMessage := severityMessage (some (Real.logb 10 (a / b / (c / d)) * 10)) } ∧
        severityMessage (some (Real.logb 10 (a / b / (c / d)) * 10)) ∈
          ["Normal fluid levels.", "Mild to moderate fluid buildup.",
           "Significant fluid buildup. Please consult a specialist."]) ∧
      (a / b / (c / d) < 0 →
        calculateManualLDex vA iA vU iU st =
          { manualLDex := none,
            manualMessage := "Significant fluid buildup. Please consult a specialist." })) := by
  constructor
  · intro h
    unfold calculateManualLDex
    rw [if_pos]
    rcases h with h | h | h | h <;>
      simp [falsy, h]
  · rintro a b c d rfl rfl rfl rfl ha hb hc hd
    have hcond : ¬(falsy (some a) ∨ falsy (some b) ∨ falsy (some c) ∨ falsy (some d)) := by
      simp [falsy, ha, hb, hc, hd]
    constructor
    · intro hpos
      have hj : jsLog10 (a / b / (c / d)) = some (Real.logb 10 (a / b / (c / d))) := by
        simp [jsLog10, hpos]
      constructor
      · unfold calculateManualLDex
        rw [if_neg hcond]
        simp [hj]
      · unfold severityMessage
        by_cases h3 : |Real.logb 10 (a / b / (c / d)) * 10| < 3
        · simp [h3]
        · by_cases h10 : |Real.logb 10 (a / b / (c / d)) * 10| < 10
          · simp [h3, h10]
          · simp [h3, h10]
    · intro hneg
      have hj : jsLog10 (a / b / (c / d)) = none := by
        simp only [jsLog10, if_neg (not_lt_of_gt hneg)]
      unfold calculateManualLDex
      rw [if_neg hcond]
      simp [hj, severityMessage]

/-- Witness for C5: the empty-field branch at `vA = none`, the computing branch
at `vA = 10, iA = 1, vU = 1, iU = 1`, and the NaN branch at `vA = -1`. -/
theorem calculateManualLDex_validation_witness :
    calculateManualLDex none (some 1) (some 1) (some 1) ⟨none, ""⟩ =
      { manualLDex := none,
        manualMessage := "Please fill all voltage and current values." } ∧
    calculateManualLDex (some 10) (some 1) (some 1) (some 1) ⟨none, ""⟩ =
      { manualLDex := some (Real.logb 10 ((10:ℝ) / 1 / (1 / 1)) * 10),
        manualMessage := severityMessage (some (Real.logb 10 ((10:ℝ) / 1 / (1 / 1)) * 10)) } ∧
    calculateManualLDex (some (-2)) (some 1) (some 1) (some 1) ⟨none, ""⟩ =
      { manualLDex := none,
        manualMessage := "Significant fluid buildup. Please consult a specialist." } :=
  ⟨(calculateManualLDex_validation none (some 1) (some 1) (some 1) ⟨none, ""⟩).1
      (Or.inl rfl),
   (((calculateManualLDex_validation (some 10) (some 1) (some 1) (some 1) ⟨none, ""⟩).2
      10 1 1 1 rfl rfl rfl rfl (by norm_num) (by norm_num) (by norm_num)
      (by norm_num)).1 (by norm_num)).1,
   ((calculateManualLDex_validation (some (-2)) (some 1) (some 1) (some 1) ⟨none, ""⟩).2
      (-2) 1 1 1 rfl rfl rfl rfl (by norm_num) (by norm_num) (by norm_num)
      (by norm_num)).2 (by norm_num)⟩

theorem selectedImpedance_unfold (x : ℝ) (minFreq maxFreq s : ℤ) :
    selectedImpedance x minFreq maxFreq s =
      if (frequencies minFreq maxFreq).indexOf s ≠ (frequencies minFreq maxFreq).length
      then (generateImpedanceData x minFreq maxFreq).impedanceData[
        (frequencies minFreq maxFreq).indexOf s]?
      else none := rfl

/-- C6: in the frequency-selection version, when
`minFreq ≤ selectedFreq ≤ maxFreq` the lookup
`frequencies.indexOf(selectedFreq)` succeeds and `selectedImpedance` is the
numeric impedance at `selectedFreq`; when `selectedFreq` lies outside
`[minFreq, maxFreq]` it is the non-numeric `"N/A"` value (here `none`), on
which the render's `.toFixed(2)` is not a defined operation. -/
theorem selectedImpedance_lookup (x : ℝ) (minFreq maxFreq s : ℤ) :
    (minFreq ≤ s → s ≤ maxFreq →
      selectedImpedance x minFreq maxFreq s = some (impedance x (s : ℝ)) ∧
      toFixedDefined (selectedImpedance x minFreq maxFreq s)) ∧
    ((s < minFreq ∨ maxFreq < s) →
      selectedImpedance x minFreq maxFreq s = none ∧
      ¬ toFixedDefined (selectedImpedance x minFreq maxFreq s)) := by
  constructor
  · intro h1 h2
    have hval : selectedImpedance x minFreq maxFreq s = some (impedance x (s : ℝ)) := by
      rw [selectedImpedance_unfold, frequencies_indexOf minFreq maxFreq s h1 h2,
        frequencies_length]
      have hbound : (s - minFreq).toNat <
          (generateImpedanceData x minFreq maxFreq).impedanceData.length := by
        rw [impedanceData_length]
        omega
      rw [if_pos (by omega), List.getElem?_eq_getElem hbound,
        impedanceData_getElem x minFreq maxFreq _ hbound]
      congr 2
      have hcast : ((s - minFreq).toNat : ℤ) = s - minFreq :=
        Int.toNat_of_nonneg (by omega)
      rw [← Int.cast_natCast, hcast]
      push_cast
      ring
    refine ⟨hval, ?_⟩
    rw [toFixedDefined, hval]
    rfl
  · intro h
    have hnotmem : s ∉ frequencies minFreq maxFreq := by
      rw [mem_frequencies]
      omega
    have hval : selectedImpedance x minFreq maxFreq s = none := by
      rw [selectedImpedance_unfold, List.indexOf_eq_length.mpr hnotmem,
        if_neg (not_not_intro rfl)]
    refine ⟨hval, ?_⟩
    rw [toFixedDefined, hval]
    simp

/-- Witness for C6: in range at `x = 0, minFreq = 1, maxFreq = 3, s = 2`, out
of range at `s = 5`. -/
theorem selectedImpedance_lookup_witness :
    (selectedImpedance 0 1 3 2 = some (impedance 0 (2:ℝ)) ∧
      toFixedDefined (selectedImpedance 0 1 3 2)) ∧
    (selectedImpedance 0 1 3 5 = none ∧ ¬ toFixedDefined (selectedImpedance 0 1 3 5)) :=
  ⟨(selectedImpedance_lookup 0 1 3 2).1 (by decide) (by decide),
   (selectedImpedance_lookup 0 1 3 5).2 (Or.inr (by decide))⟩

theorem exportToCSV_snd (leftFluid rightFluid : ℝ) (minFreq maxFreq : ℤ) :
    (exportToCSV leftFluid rightFluid minFreq maxFreq).2 =
      (frequencies minFreq maxFreq).enum.map (fun p =>
        match (generateImpedanceData leftFluid minFreq maxFreq).impedanceData[p.1]?,
              (generateImpedanceData rightFluid minFreq maxFreq).impedanceData[p.1]? with
        | some zl, some zr => some (p.2, zl, zr)
        | _, _ => none) := rfl

/-- C10: in the dual-limb version `exportToCSV` produces the header row
`"Frequency,Left Impedance,Right Impedance"` followed by exactly
`maxFreq - minFreq + 1` data rows; row `i` pairs the left and right impedances
computed at the same frequency `minFreq + i`, and every index access is in
bounds (no row is `none`), because both series are generated with identical
frequency bounds. -/
theorem exportToCSV_rows (leftFluid rightFluid : ℝ) (minFreq maxFreq : ℤ)
    (hle : minFreq ≤ maxFreq) :
    (exportToCSV leftFluid rightFluid minFreq maxFreq).1 =
      "Frequency,Left Impedance,Right Impedance" ∧
    (((exportToCSV leftFluid rightFluid minFreq maxFreq).2.length : ℤ) =
      maxFreq - minFreq + 1) ∧
    (∀ i (h : i < (exportToCSV leftFluid rightFluid minFreq maxFreq).2.length),
      (exportToCSV leftFluid rightFluid minFreq maxFreq).2[i] =
        some (minFreq + i, impedance leftFluid ((minFreq : ℝ) + i),
          impedance rightFluid ((minFreq : ℝ) + i))) := by
  refine ⟨rfl, ?_, ?_⟩
  · rw [exportToCSV_snd, List.length_map, List.enum_length, frequencies_length]
    omega
  · intro i h
    have hlen : i < (frequencies minFreq maxFreq).length := by
      rw [exportToCSV_snd, List.length_map, List.enum_length] at h
      exact h
    have hlenL : i < (generateImpedanceData leftFluid minFreq maxFreq).impedanceData.length := by
      rw [impedanceData_length]
      rw [frequencies_length] at hlen
      omega
    have hlenR : i < (generateImpedanceData rightFluid minFreq maxFreq).impedanceData.length := by
      rw [impedanceData_length]
      rw [frequencies_length] at hlen
      omega
    simp only [exportToCSV_snd, List.getElem_map, List.getElem_enum]
    rw [List.getElem?_eq_getElem hlenL, List.getElem?_eq_getElem hlenR,
      impedanceData_getElem leftFluid minFreq maxFreq i hlenL,
      impedanceData_getElem rightFluid minFreq maxFreq i hlenR,
      frequencies_getElem minFreq maxFreq i hlen]

/-- Witness for C10 at `leftFluid = 0`, `rightFluid = 1`, `minFreq = 1`,
`maxFreq = 2`. -/
theorem exportToCSV_rows_witness :
    (1:ℤ) ≤ 2 ∧
    ((exportToCSV 0 1 1 2).1 = "Frequency,Left Impedance,Right Impedance" ∧
    (((exportToCSV 0 1 1 2).2.length : ℤ) = 2 - 1 + 1) ∧
    (∀ i (h : i < (exportToCSV 0 1 1 2).2.length),
      (exportToCSV 0 1 1 2).2[i] =
        some ((1:ℤ) + i, impedance 0 (((1:ℤ) : ℝ) + i), impedance 1 (((1:ℤ) : ℝ) + i)))) :=
  ⟨by decide, exportToCSV_rows 0 1 1 2 (by decide)⟩

end Bioimpedance
